import Mathlib

/-!
Verification development for the authorization decision core of
ldap-totp-nginx-auth.  The definitions below are a shallow embedding of the
Go source under internal/handlers/handler_user_info.go and
internal/oidc/keys.go, together with the access-control engine described in
the design document (whose source is not part of the sample).  Theorems
settle the behavioural claims about the aggregator, the HTTP envelopes, the
access-control evaluation order and the key manager.
-/

namespace Authelia

/-- Embeds the UserPreferences result structure assembled by loadInfo.
Field names follow the JSON keys method / has_u2f / has_totp used by the
user-info endpoint. -/
structure UserPreferences where
  Method : String
  HasU2F : Bool
  HasTOTP : Bool
deriving DecidableEq, Repr

/-- Zero value of UserPreferences, as created by UserInfoGet before the call
to loadInfo. -/
def emptyPreferences : UserPreferences := ⟨"", false, false⟩

/-- Outcome of storageProvider.LoadPreferred2FAMethod: a method string on
success (possibly empty, meaning not configured), otherwise an error. -/
inductive MethodLookup where
  | ok (method : String)
  | err (msg : String)
deriving DecidableEq, Repr

/-- Outcome of the U2F device-handle and TOTP-secret lookups: success, the
sentinel not-found error (storage.ErrNoU2FDeviceHandle or
storage.ErrNoTOTPSecret), or any other failure. -/
inductive StoreLookup where
  | ok
  | notFound
  | err (msg : String)
deriving DecidableEq, Repr

/-- True exactly when the preferred-method lookup succeeded. -/
def MethodLookup.isOk : MethodLookup → Bool
  | MethodLookup.ok _ => true
  | MethodLookup.err _ => false

/-- True exactly when a lookup failed with a non-sentinel error. -/
def StoreLookup.isHardErr : StoreLookup → Bool
  | StoreLookup.err _ => true
  | _ => false

/-- Result of one goroutine of loadInfo: the updated preferences, the errors
it appended to the shared error slice, and the errors it passed to
logger.Error. -/
structure TaskResult where
  prefs : UserPreferences
  errs : List String
  log : List String
deriving DecidableEq, Repr

/-- Embeds the first goroutine of loadInfo: on a lookup error the error is
appended and logged; otherwise Method is set to the looked-up method, or to
the first entry of authentication.PossibleMethods when the stored method is
the empty string.  The PossibleMethods list is a parameter since the
authentication package is outside the sample. -/
def methodGoroutine (possibleMethods : List String) (res : MethodLookup)
    (prefs : UserPreferences) : TaskResult :=
  match res with
  | MethodLookup.err e => ⟨prefs, [e], [e]⟩
  | MethodLookup.ok method =>
      ⟨{ prefs with
          Method := if method = "" then possibleMethods.headD "" else method },
        [], []⟩

/-- Embeds the second goroutine of loadInfo: the sentinel
storage.ErrNoU2FDeviceHandle leaves the preferences untouched with no error;
any other error is appended and logged; success sets HasU2F to true. -/
def u2fGoroutine (res : StoreLookup) (prefs : UserPreferences) : TaskResult :=
  match res with
  | StoreLookup.ok => ⟨{ prefs with HasU2F := true }, [], []⟩
  | StoreLookup.notFound => ⟨prefs, [], []⟩
  | StoreLookup.err e => ⟨prefs, [e], [e]⟩

/-- Embeds the third goroutine of loadInfo: the sentinel
storage.ErrNoTOTPSecret leaves the preferences untouched with no error; any
other error is appended and logged; success sets HasTOTP to true. -/
def totpGoroutine (res : StoreLookup) (prefs : UserPreferences) : TaskResult :=
  match res with
  | StoreLookup.ok => ⟨{ prefs with HasTOTP := true }, [], []⟩
  | StoreLookup.notFound => ⟨prefs, [], []⟩
  | StoreLookup.err e => ⟨prefs, [e], [e]⟩

/-- Embeds loadInfo: the three goroutines each consume one lookup outcome
and update disjoint fields of the shared preferences; wg.Wait joins all
three before the error slice is returned, so the result here is a function
of all three outcomes.  The error and log lists collect every appended and
logged error. -/
def loadInfo (possibleMethods : List String) (methodRes : MethodLookup)
    (u2fRes totpRes : StoreLookup) (prefs : UserPreferences) : TaskResult :=
  let r1 := methodGoroutine possibleMethods methodRes prefs
  let r2 := u2fGoroutine u2fRes r1.prefs
  let r3 := totpGoroutine totpRes r2.prefs
  ⟨r3.prefs, r1.errs ++ r2.errs ++ r3.errs, r1.log ++ r2.log ++ r3.log⟩

/-- Modelled from the spec: the generic failure message used by ctx.Error
envelopes; the handlers constant file is outside the sample. -/
def operationFailedMessage : String := "Operation failed."

/-- Responses the handlers can produce: a JSON body carrying the
preferences, an error envelope (internal error text plus the client-facing
message), or a plain OK reply. -/
inductive Response where
  | jsonBody (prefs : UserPreferences)
  | errorReply (err : String) (message : String)
  | okReply
deriving DecidableEq, Repr

/-- Embeds UserInfoGet: runs loadInfo on a zero-valued UserPreferences; a
non-empty error list yields the generic error envelope, otherwise the
preferences are returned as the JSON body.  The second component is the
server-side log produced inside loadInfo. -/
def UserInfoGet (possibleMethods : List String) (methodRes : MethodLookup)
    (u2fRes totpRes : StoreLookup) : Response × List String :=
  if (loadInfo possibleMethods methodRes u2fRes totpRes emptyPreferences).errs.length > 0 then
    (Response.errorReply "Unable to load user information" operationFailedMessage,
     (loadInfo possibleMethods methodRes u2fRes totpRes emptyPreferences).log)
  else
    (Response.jsonBody (loadInfo possibleMethods methodRes u2fRes totpRes emptyPreferences).prefs,
     (loadInfo possibleMethods methodRes u2fRes totpRes emptyPreferences).log)

/-- Embeds the MethodBody request structure of the 2fa_method endpoint. -/
structure MethodBody where
  Method : String
deriving DecidableEq, Repr

/-- Outcome of ctx.ParseBody on the request body. -/
inductive ParseResult where
  | ok (body : MethodBody)
  | err (msg : String)
deriving DecidableEq, Repr

/-- Result of MethodPreferencePost: the response sent and, when
SavePreferred2FAMethod was called, the method that was passed to it. -/
structure PostOutcome where
  response : Response
  savedMethod : Option String
deriving DecidableEq, Repr

/-- Modelled from the spec: utils.IsStringInSlice checks membership of a
string in the closed set of supported methods; the utils package is outside
the sample. -/
def IsStringInSlice (needle : String) (haystack : List String) : Bool :=
  haystack.any (fun s => s == needle)

/-- Embeds MethodPreferencePost: a parse failure is returned as an error
envelope without saving; a method outside PossibleMethods is rejected with a
descriptive message without saving; otherwise SavePreferred2FAMethod is
called (its outcome is the saveErr parameter) and the handler replies OK on
success or with an error envelope on failure.  Quoting punctuation of the Go
format strings is elided in the message texts. -/
def MethodPreferencePost (possibleMethods : List String) (parsed : ParseResult)
    (saveErr : Option String) : PostOutcome :=
  match parsed with
  | ParseResult.err e => ⟨Response.errorReply e operationFailedMessage, none⟩
  | ParseResult.ok body =>
      if ! IsStringInSlice body.Method possibleMethods then
        ⟨Response.errorReply
            ("Unknown method " ++ body.Method ++ ", it should be one of " ++
              String.intercalate ", " possibleMethods)
            operationFailedMessage, none⟩
      else
        match saveErr with
        | some e =>
            ⟨Response.errorReply ("Unable to save new preferred 2FA method: " ++ e)
                operationFailedMessage, some body.Method⟩
        | none => ⟨Response.okReply, some body.Method⟩

/-- Steps of the unsynchronized append performed by two failing goroutines
of loadInfo.  In Go, errors = append(errors, err) first reads the shared
slice header and then writes back the extended slice; with no lock these two
halves can interleave between goroutines A and B. -/
inductive RaceStep where
  | readA
  | writeA
  | readB
  | writeB
deriving DecidableEq, Repr

/-- Shared state of the race model: the shared error slice and each
goroutine's private snapshot of it. -/
structure RaceState where
  shared : List String
  snapA : Option (List String)
  snapB : Option (List String)
deriving DecidableEq, Repr

/-- Small-step semantics of the unsynchronized append: a read copies the
shared slice into the goroutine's snapshot, a write stores the snapshot
extended with that goroutine's error back into the shared slice. -/
def raceStep (eA eB : String) (s : RaceState) : RaceStep → RaceState
  | RaceStep.readA => { s with snapA := some s.shared }
  | RaceStep.writeA =>
      match s.snapA with
      | some l => { s with shared := l ++ [eA] }
      | none => s
  | RaceStep.readB => { s with snapB := some s.shared }
  | RaceStep.writeB =>
      match s.snapB with
      | some l => { s with shared := l ++ [eB] }
      | none => s

/-- Runs a schedule of race steps from the initial state of loadInfo, where
the shared error slice is empty and no snapshot has been taken. -/
def raceRun (eA eB : String) (sched : List RaceStep) : RaceState :=
  sched.foldl (raceStep eA eB) ⟨[], none, none⟩

/-- Modelled from the spec: the ordered trust levels of the access-control
engine; matching is first-match, not a lattice operation. -/
inductive PolicyLevel where
  | bypass
  | one_factor
  | two_factor
  | deny
deriving DecidableEq, Repr

/-- Modelled from the spec: the subject criterion of a rule is any, a single
user name, or a group name. -/
inductive SubjectCriterion where
  | any
  | user (name : String)
  | group (name : String)
deriving DecidableEq, Repr

/-- Modelled from the spec: an access-control rule with a domain pattern,
path patterns (empty list means any), a subject criterion, CIDR ranges
(empty list means any), HTTP methods (empty list means any) and the policy
granted when the rule matches. -/
structure AccessRule where
  domain : String
  resources : List String
  subject : SubjectCriterion
  networks : List String
  methods : List String
  policy : PolicyLevel

/-- Modelled from the spec: the ordered rule list plus the default policy,
immutable after load. -/
structure RuleSet where
  rules : List AccessRule
  defaultPolicy : PolicyLevel

/-- Modelled from the spec: the facts of one request that the engine
evaluates — authenticated user, group memberships, target host and path,
caller network address and HTTP method. -/
structure AccessRequest where
  username : String
  groups : List String
  domain : String
  path : String
  network : String
  method : String

/-- Modelled from the spec: a domain pattern matches the exact host, or, for
a wildcard pattern of the form *.suffix, any host ending in .suffix. -/
def domainMatches (pattern host : String) : Bool :=
  pattern == host ||
    (pattern.startsWith "*." && host.endsWith (pattern.drop 1))

/-- Modelled from the spec: any always matches; a user criterion matches
the exact authenticated username; a group criterion matches when the user
belongs to that group. -/
def subjectMatches (c : SubjectCriterion) (req : AccessRequest) : Bool :=
  match c with
  | SubjectCriterion.any => true
  | SubjectCriterion.user n => n == req.username
  | SubjectCriterion.group g => req.groups.any (fun x => x == g)

/-- Modelled from the spec: a rule matches when every present criterion
matches the request.  Path-pattern and CIDR semantics are kept abstract as
the pathMatch and inNet parameters, since the spec leaves their concrete
syntax to the configuration layer. -/
def ruleMatches (pathMatch inNet : String → String → Bool)
    (r : AccessRule) (req : AccessRequest) : Bool :=
  domainMatches r.domain req.domain &&
  (r.resources.isEmpty || r.resources.any (fun p => pathMatch p req.path)) &&
  subjectMatches r.subject req &&
  (r.networks.isEmpty || r.networks.any (fun c => inNet c req.network)) &&
  (r.methods.isEmpty || r.methods.any (fun m => m == req.method))

/-- Modelled from the spec: Evaluate walks the rules in configured order and
returns the policy of the first fully-matching rule, or the default policy
when no rule matches. -/
def Evaluate (pathMatch inNet : String → String → Bool)
    (rs : RuleSet) (req : AccessRequest) : PolicyLevel :=
  match rs.rules.find? (fun r => ruleMatches pathMatch inNet r req) with
  | some r => r.policy
  | none => rs.defaultPolicy

/-- Embeds the KeyManager state of internal/oidc/keys.go: the active key id,
the keys map (as an association list), the JSON web key set (kid paired with
the key material, abstracted as a natural number) and the key id held by the
RS256 strategy.  RSA key material is abstracted as Nat and the SHA256
thumbprint as a function parameter. -/
structure KeyManager where
  activeKeyID : String
  keys : List (String × Nat)
  keySetKeys : List (String × Nat)
  strategyKeyID : String
deriving DecidableEq, Repr

/-- Association-list lookup standing for the Go map access m.keys[kid]. -/
def lookupKey (keys : List (String × Nat)) (kid : String) : Option Nat :=
  match keys.find? (fun p => p.1 == kid) with
  | some p => some p.2
  | none => none

/-- Embeds GetActiveKeyID: returns the activeKeyID field as-is. -/
def GetActiveKeyID (m : KeyManager) : String :=
  m.activeKeyID

/-- Embeds GetActiveKey: looks the active key id up in the keys map and
returns its public part, or the failure message when absent. -/
def GetActiveKey (m : KeyManager) : Except String Nat :=
  match lookupKey m.keys m.activeKeyID with
  | some k => Except.ok k
  | none => Except.error "failed to retrieve active key"

/-- Embeds GetActivePrivateKey: looks the active key id up in the keys map,
or returns the failure message when absent. -/
def GetActivePrivateKey (m : KeyManager) : Except String Nat :=
  match lookupKey m.keys m.activeKeyID with
  | some k => Except.ok k
  | none => Except.error "failed to retrieve active key"

/-- Embeds AddActiveKey: computes the thumbprint key id, rejects a duplicate
id, and otherwise appends the web key to the key set and inserts the key
into the keys map.  The source never assigns activeKeyID in this function,
and neither does this embedding. -/
def AddActiveKey (thumbprint : Nat → String) (m : KeyManager) (key : Nat) :
    Except String (String × KeyManager) :=
  let strKeyID := thumbprint key
  if (lookupKey m.keys strKeyID).isSome then
    Except.error ("key id " ++ strKeyID ++ " already exists")
  else
    Except.ok (strKeyID,
      { m with
          keySetKeys := m.keySetKeys ++ [(strKeyID, key)],
          keys := m.keys ++ [(strKeyID, key)] })

/-- Embeds NewKeyManager: starts from the zero-valued manager, adds the
issuer key through AddActiveKey (PEM parsing is abstracted away, the key is
passed directly) and initializes the strategy with the returned web key id. -/
def NewKeyManager (thumbprint : Nat → String) (issuerPrivateKey : Nat) :
    Except String KeyManager :=
  match AddActiveKey thumbprint ⟨"", [], [], ""⟩ issuerPrivateKey with
  | Except.error e => Except.error e
  | Except.ok (kid, m1) => Except.ok { m1 with strategyKeyID := kid }

/-- Helper: List.find? returns the element at the first index whose
predicate holds, when all earlier indices fail the predicate. -/
theorem find_first_matching {α : Type} (p : α → Bool) (l : List α) :
    ∀ (i : Nat) (hi : i < l.length),
      p (l.get ⟨i, hi⟩) = true →
      (∀ (j : Nat) (hj : j < i), p (l.get ⟨j, Nat.lt_trans hj hi⟩) = false) →
      l.find? p = some (l.get ⟨i, hi⟩) := by
  induction l with
  | nil => intro i hi _ _; exact absurd hi (Nat.not_lt_zero i)
  | cons a t ih =>
    intro i hi hp hb
    cases i with
    | zero => exact List.find?_cons_of_pos t hp
    | succ k =>
      have ha : p a = false := hb 0 (Nat.succ_pos k)
      rw [List.find?_cons_of_neg t (by simp [ha])]
      exact ih k (Nat.lt_of_succ_lt_succ hi) hp
        (fun j hj => hb (j + 1) (Nat.succ_lt_succ hj))

/-- C1: with preferred method "totp", a sentinel-not-found U2F lookup and a
sentinel-not-found TOTP lookup, loadInfo yields method "totp" with both
capability booleans false and an empty error list; in general a sentinel
not-found outcome leaves the preferences unchanged and appends and logs
nothing, while a non-sentinel failure is appended to the error list. -/
theorem aggregator_partial_absence (possibleMethods : List String)
    (p : UserPreferences) (e : String) :
    loadInfo possibleMethods (MethodLookup.ok "totp") StoreLookup.notFound
        StoreLookup.notFound emptyPreferences = ⟨⟨"totp", false, false⟩, [], []⟩ ∧
    u2fGoroutine StoreLookup.notFound p = ⟨p, [], []⟩ ∧
    totpGoroutine StoreLookup.notFound p = ⟨p, [], []⟩ ∧
    u2fGoroutine (StoreLookup.err e) p = ⟨p, [e], [e]⟩ ∧
    totpGoroutine (StoreLookup.err e) p = ⟨p, [e], [e]⟩ :=
  ⟨rfl, rfl, rfl, rfl, rfl⟩

/-- C2: loadInfo is a function of all three lookup outcomes (the embedding
joins the three tasks before returning, mirroring wg.Wait), and its error
list is empty exactly when the preferred-method lookup succeeded and
neither the U2F nor the TOTP lookup failed with a non-sentinel error. -/
theorem loadInfo_errors_empty_iff (possibleMethods : List String)
    (methodRes : MethodLookup) (u2fRes totpRes : StoreLookup)
    (p : UserPreferences) :
    (loadInfo possibleMethods methodRes u2fRes totpRes p).errs = [] ↔
      (methodRes.isOk = true ∧ u2fRes.isHardErr = false ∧
        totpRes.isHardErr = false) := by
  cases methodRes <;> cases u2fRes <;> cases totpRes <;>
    simp [loadInfo, methodGoroutine, u2fGoroutine, totpGoroutine,
      MethodLookup.isOk, StoreLookup.isHardErr]

/-- C3: when the U2F lookup fails with a non-sentinel error while the
preferred-method and TOTP lookups succeed, loadInfo still records the
method and HasTOTP from the successful lookups, returns a non-empty error
list, and UserInfoGet responds with the generic failure envelope. -/
theorem aggregator_real_failure (possibleMethods : List String)
    (method msg : String) (hm : ¬ method = "") :
    (loadInfo possibleMethods (MethodLookup.ok method) (StoreLookup.err msg)
        StoreLookup.ok emptyPreferences).prefs.Method = method ∧
    (loadInfo possibleMethods (MethodLookup.ok method) (StoreLookup.err msg)
        StoreLookup.ok emptyPreferences).prefs.HasTOTP = true ∧
    (loadInfo possibleMethods (MethodLookup.ok method) (StoreLookup.err msg)
        StoreLookup.ok emptyPreferences).errs ≠ [] ∧
    (UserInfoGet possibleMethods (MethodLookup.ok method) (StoreLookup.err msg)
        StoreLookup.ok).fst =
      Response.errorReply "Unable to load user information" operationFailedMessage := by
  refine ⟨?_, rfl, by simp [loadInfo, methodGoroutine, u2fGoroutine, totpGoroutine], rfl⟩
  simp [loadInfo, methodGoroutine, u2fGoroutine, totpGoroutine, hm]

/-- Witness for C3 at method "totp" and error "storage unreachable". -/
theorem aggregator_real_failure_witness :
    (loadInfo ["totp"] (MethodLookup.ok "totp") (StoreLookup.err "storage unreachable")
        StoreLookup.ok emptyPreferences).prefs.Method = "totp" ∧
    (loadInfo ["totp"] (MethodLookup.ok "totp") (StoreLookup.err "storage unreachable")
        StoreLookup.ok emptyPreferences).prefs.HasTOTP = true ∧
    (loadInfo ["totp"] (MethodLookup.ok "totp") (StoreLookup.err "storage unreachable")
        StoreLookup.ok emptyPreferences).errs ≠ [] ∧
    (UserInfoGet ["totp"] (MethodLookup.ok "totp") (StoreLookup.err "storage unreachable")
        StoreLookup.ok).fst =
      Response.errorReply "Unable to load user information" operationFailedMessage :=
  aggregator_real_failure ["totp"] "totp" "storage unreachable" (by decide)

/-- C4: the unsynchronized append in loadInfo is not safe for concurrent
append: when both the U2F and the TOTP goroutines fail and both read the
shared error slice before either writes it back (schedule readA, readB,
writeA, writeB), the first error is lost from the final slice, whereas a
serialized schedule keeps both errors. -/
theorem error_append_race_loses_error :
    (raceRun "errA" "errB"
        [RaceStep.readA, RaceStep.readB, RaceStep.writeA, RaceStep.writeB]).shared
      = ["errB"] ∧
    ¬ "errA" ∈ (raceRun "errA" "errB"
        [RaceStep.readA, RaceStep.readB, RaceStep.writeA, RaceStep.writeB]).shared ∧
    (raceRun "errA" "errB"
        [RaceStep.readA, RaceStep.writeA, RaceStep.readB, RaceStep.writeB]).shared
      = ["errA", "errB"] := by
  refine ⟨rfl, ?_, rfl⟩
  decide

/-- C5: each goroutine of loadInfo writes only its own field of the shared
preferences: the preferred-method task leaves HasU2F and HasTOTP unchanged,
the U2F task leaves Method and HasTOTP unchanged, and the TOTP task leaves
Method and HasU2F unchanged, for every lookup outcome. -/
theorem aggregator_disjoint_fields (possibleMethods : List String)
    (methodRes : MethodLookup) (u2fRes totpRes : StoreLookup)
    (p : UserPreferences) :
    ((methodGoroutine possibleMethods methodRes p).prefs.HasU2F = p.HasU2F ∧
     (methodGoroutine possibleMethods methodRes p).prefs.HasTOTP = p.HasTOTP) ∧
    ((u2fGoroutine u2fRes p).prefs.Method = p.Method ∧
     (u2fGoroutine u2fRes p).prefs.HasTOTP = p.HasTOTP) ∧
    ((totpGoroutine totpRes p).prefs.Method = p.Method ∧
     (totpGoroutine totpRes p).prefs.HasU2F = p.HasU2F) := by
  refine ⟨?_, ?_, ?_⟩
  · cases methodRes <;> exact ⟨rfl, rfl⟩
  · cases u2fRes <;> exact ⟨rfl, rfl⟩
  · cases totpRes <;> exact ⟨rfl, rfl⟩

/-- C6: MethodPreferencePost replies with an error envelope and never calls
SavePreferred2FAMethod when the body fails to parse or the method is not in
the supported set; with a valid method it calls the save and replies OK on
success, or with an error envelope when the save fails. -/
theorem method_preference_post_contract (possibleMethods : List String)
    (e : String) (body : MethodBody) :
    (∀ s, MethodPreferencePost possibleMethods (ParseResult.err e) s =
        ⟨Response.errorReply e operationFailedMessage, none⟩) ∧
    (IsStringInSlice body.Method possibleMethods = false →
       ∀ s, MethodPreferencePost possibleMethods (ParseResult.ok body) s =
        ⟨Response.errorReply
            ("Unknown method " ++ body.Method ++ ", it should be one of " ++
              String.intercalate ", " possibleMethods)
            operationFailedMessage, none⟩) ∧
    (IsStringInSlice body.Method possibleMethods = true →
       MethodPreferencePost possibleMethods (ParseResult.ok body) none =
         ⟨Response.okReply, some body.Method⟩ ∧
       ∀ se, MethodPreferencePost possibleMethods (ParseResult.ok body) (some se) =
         ⟨Response.errorReply ("Unable to save new preferred 2FA method: " ++ se)
             operationFailedMessage, some body.Method⟩) := by
  refine ⟨fun s => rfl, ?_, ?_⟩
  · intro h s
    simp [MethodPreferencePost, h]
  · intro h
    exact ⟨by simp [MethodPreferencePost, h], fun se => by simp [MethodPreferencePost, h]⟩

/-- Witness for C6: the unsupported method push is rejected without a save,
and the supported method totp is saved with an OK reply. -/
theorem method_preference_post_contract_witness :
    MethodPreferencePost ["totp", "u2f"] (ParseResult.ok ⟨"push"⟩) none =
      ⟨Response.errorReply "Unknown method push, it should be one of totp, u2f"
          operationFailedMessage, none⟩ ∧
    MethodPreferencePost ["totp", "u2f"] (ParseResult.ok ⟨"totp"⟩) none =
      ⟨Response.okReply, some "totp"⟩ := by
  constructor
  · have h := (method_preference_post_contract ["totp", "u2f"] "" ⟨"push"⟩).2.1
      (by decide) none
    exact h.trans (by decide)
  · exact ((method_preference_post_contract ["totp", "u2f"] "" ⟨"totp"⟩).2.2
      (by decide)).1

/-- C7: UserInfoGet returns the preferences as the JSON body when the
aggregation error list is empty, responds with the single generic message
when it is non-empty, and every error in the list was logged server-side
inside loadInfo (the log equals the error list). -/
theorem user_info_get_contract (possibleMethods : List String)
    (methodRes : MethodLookup) (u2fRes totpRes : StoreLookup) :
    ((loadInfo possibleMethods methodRes u2fRes totpRes emptyPreferences).errs = [] →
       UserInfoGet possibleMethods methodRes u2fRes totpRes =
         (Response.jsonBody
            (loadInfo possibleMethods methodRes u2fRes totpRes emptyPreferences).prefs,
          (loadInfo possibleMethods methodRes u2fRes totpRes emptyPreferences).log)) ∧
    ((loadInfo possibleMethods methodRes u2fRes totpRes emptyPreferences).errs ≠ [] →
       (UserInfoGet possibleMethods methodRes u2fRes totpRes).fst =
         Response.errorReply "Unable to load user information" operationFailedMessage) ∧
    (loadInfo possibleMethods methodRes u2fRes totpRes emptyPreferences).log =
      (loadInfo possibleMethods methodRes u2fRes totpRes emptyPreferences).errs := by
  refine ⟨?_, ?_, ?_⟩
  · intro h
    simp [UserInfoGet, h]
  · intro h
    have hp : 0 < (loadInfo possibleMethods methodRes u2fRes totpRes emptyPreferences).errs.length :=
      List.length_pos.mpr h
    simp [UserInfoGet, hp]
  · cases methodRes <;> cases u2fRes <;> cases totpRes <;> rfl

/-- Witness for C7: an all-successful aggregation yields the JSON body, and
a failing TOTP lookup yields the generic failure envelope. -/
theorem user_info_get_contract_witness :
    UserInfoGet ["totp"] (MethodLookup.ok "totp") StoreLookup.ok StoreLookup.ok =
      (Response.jsonBody ⟨"totp", true, true⟩, []) ∧
    (UserInfoGet ["totp"] (MethodLookup.ok "totp") StoreLookup.ok
        (StoreLookup.err "decode failure")).fst =
      Response.errorReply "Unable to load user information" operationFailedMessage := by
  constructor
  · have h := (user_info_get_contract ["totp"] (MethodLookup.ok "totp")
      StoreLookup.ok StoreLookup.ok).1 (by decide)
    exact h.trans (by decide)
  · exact (user_info_get_contract ["totp"] (MethodLookup.ok "totp") StoreLookup.ok
      (StoreLookup.err "decode failure")).2.1 (by decide)

/-- C8: Evaluate is first-match-wins: when the rule at index i matches and
every rule before it does not, the returned policy is that of rule i,
regardless of whether later rules also match; and when no rule matches, the
default policy of the rule set is returned. -/
theorem access_control_first_match (pathMatch inNet : String → String → Bool)
    (rs : RuleSet) (req : AccessRequest) :
    (∀ (i : Nat) (hi : i < rs.rules.length),
       ruleMatches pathMatch inNet (rs.rules.get ⟨i, hi⟩) req = true →
       (∀ (j : Nat) (hj : j < i),
          ruleMatches pathMatch inNet (rs.rules.get ⟨j, Nat.lt_trans hj hi⟩) req = false) →
       Evaluate pathMatch inNet rs req = (rs.rules.get ⟨i, hi⟩).policy) ∧
    ((∀ r ∈ rs.rules, ruleMatches pathMatch inNet r req = false) →
       Evaluate pathMatch inNet rs req = rs.defaultPolicy) := by
  constructor
  · intro i hi hp hb
    unfold Evaluate
    rw [find_first_matching (fun r => ruleMatches pathMatch inNet r req) rs.rules i hi hp hb]
  · intro hall
    unfold Evaluate
    rw [List.find?_eq_none.mpr (fun r hr => by simp [hall r hr])]

/-- Witness for C8: two rules both match the request and the first one (at
one_factor) wins over the second (at two_factor); a rule set whose single
rule does not match falls back to the default deny. -/
theorem access_control_first_match_witness :
    Evaluate (fun _ _ => true) (fun _ _ => true)
      ⟨[⟨"example.com", [], SubjectCriterion.any, [], [], PolicyLevel.one_factor⟩,
        ⟨"example.com", [], SubjectCriterion.any, [], [], PolicyLevel.two_factor⟩],
        PolicyLevel.deny⟩
      ⟨"john", [], "example.com", "/", "10.0.0.1", "GET"⟩ = PolicyLevel.one_factor ∧
    Evaluate (fun _ _ => true) (fun _ _ => true)
      ⟨[⟨"example.com", [], SubjectCriterion.user "alice", [], [], PolicyLevel.two_factor⟩],
        PolicyLevel.deny⟩
      ⟨"john", [], "example.com", "/", "10.0.0.1", "GET"⟩ = PolicyLevel.deny := by
  constructor
  · exact (access_control_first_match (fun _ _ => true) (fun _ _ => true)
      ⟨[⟨"example.com", [], SubjectCriterion.any, [], [], PolicyLevel.one_factor⟩,
        ⟨"example.com", [], SubjectCriterion.any, [], [], PolicyLevel.two_factor⟩],
        PolicyLevel.deny⟩
      ⟨"john", [], "example.com", "/", "10.0.0.1", "GET"⟩).1 0 (by decide)
      (by decide) (fun j hj => absurd hj (Nat.not_lt_zero j))
  · exact (access_control_first_match (fun _ _ => true) (fun _ _ => true)
      ⟨[⟨"example.com", [], SubjectCriterion.user "alice", [], [], PolicyLevel.two_factor⟩],
        PolicyLevel.deny⟩
      ⟨"john", [], "example.com", "/", "10.0.0.1", "GET"⟩).2
      (by intro r hr; simp at hr; subst hr; decide)

/-- C9: when the preferred-method lookup succeeds with the empty string,
loadInfo sets the method to the first entry of the PossibleMethods list and
the preferred-method task appends no error. -/
theorem default_method_when_unset (possibleMethods : List String)
    (u2fRes totpRes : StoreLookup) (p : UserPreferences)
    (hne : possibleMethods ≠ []) :
    (loadInfo possibleMethods (MethodLookup.ok "") u2fRes totpRes p).prefs.Method =
      possibleMethods.head hne ∧
    (methodGoroutine possibleMethods (MethodLookup.ok "") p).errs = [] := by
  have hd : possibleMethods.headD "" = possibleMethods.head hne := by
    cases possibleMethods with
    | nil => exact absurd rfl hne
    | cons a t => rfl
  constructor
  · cases u2fRes <;> cases totpRes <;>
      simpa [loadInfo, methodGoroutine, u2fGoroutine, totpGoroutine] using hd
  · rfl

/-- Witness for C9 at PossibleMethods = [totp, u2f] with both presence
lookups returning the sentinel not-found. -/
theorem default_method_when_unset_witness :
    (loadInfo ["totp", "u2f"] (MethodLookup.ok "") StoreLookup.notFound
        StoreLookup.notFound emptyPreferences).prefs.Method = "totp" ∧
    (methodGoroutine ["totp", "u2f"] (MethodLookup.ok "") emptyPreferences).errs = [] := by
  have h := default_method_when_unset ["totp", "u2f"] StoreLookup.notFound
    StoreLookup.notFound emptyPreferences (by decide)
  exact ⟨h.1, h.2⟩

/-- C10: the key manager never assigns activeKeyID: after NewKeyManager
adds the issuer key under thumbprint id kid1, GetActiveKeyID still returns
the empty string (not kid1) and GetActiveKey and GetActivePrivateKey fail,
contradicting the documented behaviour that AddActiveKey sets the added key
active; the duplicate-id rejection of AddActiveKey does hold. -/
theorem keymanager_never_sets_active_key :
    NewKeyManager (fun _ => "kid1") 5 =
      Except.ok ⟨"", [("kid1", 5)], [("kid1", 5)], "kid1"⟩ ∧
    GetActiveKeyID ⟨"", [("kid1", 5)], [("kid1", 5)], "kid1"⟩ = "" ∧
    ¬ GetActiveKeyID ⟨"", [("kid1", 5)], [("kid1", 5)], "kid1"⟩ = "kid1" ∧
    GetActivePrivateKey ⟨"", [("kid1", 5)], [("kid1", 5)], "kid1"⟩ =
      Except.error "failed to retrieve active key" ∧
    GetActiveKey ⟨"", [("kid1", 5)], [("kid1", 5)], "kid1"⟩ =
      Except.error "failed to retrieve active key" ∧
    AddActiveKey (fun _ => "kid1") ⟨"", [("kid1", 5)], [("kid1", 5)], "kid1"⟩ 7 =
      Except.error "key id kid1 already exists" := by
  refine ⟨rfl, rfl, by decide, rfl, rfl, rfl⟩

end Authelia
